import Mathlib

/-!
Verification development for the dynamic property-graph store layer of the
repository (servers/graphiti/graph_operations.py).  The Python class
`GraphOperations` issues Cypher queries against Neo4j; here each operation is
embedded as a pure function on an explicit graph state, with the Cypher
semantics of the exact query the code builds (MATCH by property equality,
CREATE, SET, DETACH DELETE, count/collect aggregates) spelled out on that
state.  Nondeterministic environment inputs (generated uuid4 identifiers,
utcnow timestamps) are passed as explicit arguments.
-/

/-- A stored graph node: an internal identity (Neo4j node id), its labels, and
the property map restricted to the five properties this code ever touches.
`none` models an absent property (Cypher stores no property for a null value,
and the Python driver's accessors return None for a missing property). -/
structure PropNode where
  id : Nat
  labels : List String
  uuid : Option String
  name : Option String
  summary : Option String
  group_id : Option String
  created_at : Option String
deriving DecidableEq, Repr

/-- A stored directed relationship: endpoints by internal node identity, the
edge label (its Cypher type), and the edge properties the code writes. -/
structure PropRel where
  srcId : Nat
  dstId : Nat
  relType : String
  uuid : Option String
  summary : Option String
  group_id : Option String
  created_at : Option String
deriving DecidableEq, Repr

/-- The graph database state: all nodes, all relationships, and the next free
internal node identity. -/
structure GraphState where
  nodes : List PropNode
  rels : List PropRel
  nextId : Nat
deriving DecidableEq, Repr

/-- The empty graph. -/
def emptyDb : GraphState := ⟨[], [], 0⟩

/-- The record shape `create_node` / `get_node_by_uuid` / `update_node` return
to the HTTP layer: property values (possibly absent) plus the derived `type`. -/
structure NodeRecord where
  uuid : Option String
  name : Option String
  summary : Option String
  group_id : Option String
  created_at : Option String
  type : String
deriving DecidableEq, Repr

/-- The record shape `create_relationship` returns to the HTTP layer. -/
structure RelRecord where
  uuid : String
  source_uuid : String
  target_uuid : String
  type : String
  summary : Option String
  group_id : Option String
  created_at : String
deriving DecidableEq, Repr

/-- The distinct exception sites of graph_operations.py, one constructor per
`raise Exception(...)` message, named as the spec's error taxonomy names them:
`endpointNotFound` is "Failed to create relationship - nodes may not exist"
and `nodeNotFound` is "Node not found". -/
inductive OpError where
  | endpointNotFound
  | nodeNotFound
deriving DecidableEq, Repr

/-- Cypher semantics of the pattern `(n \x7buuid: $u\x7d)`: the nodes whose
`uuid` property is present and equals `u`, in store order. -/
def matchUuid (st : GraphState) (u : String) : List PropNode :=
  st.nodes.filter (fun n => decide (n.uuid = some u))

/-- The exact query text `create_node` builds with an f-string and passes to
`session.run`: the caller-supplied `node_type` is spliced verbatim between
backticks, all other values are bound parameters. -/
def createNodeQuery (node_type : String) : String :=
  "\n            CREATE (n:\x60" ++ node_type ++ "\x60 \x7b\n                uuid: $uuid,\n                name: $name,\n                summary: $summary,\n                group_id: $group_id,\n                created_at: $created_at\n            \x7d)\n            RETURN n\n            "

/-- Embedding of `GraphOperations.create_node`.  Returns the issued query
text, the dict built from the RETURNed node, and the resulting graph state.
The effective query (the second f-string assignment; the first, which also
set an `Entity` label, is overwritten before use) creates one node carrying
exactly the caller-supplied label, so CREATE ... RETURN always yields one
record and the "Failed to create node" branch is unreachable.  The state and
record components give the Cypher meaning of the query for a `node_type`
that stays inside the backtick quoting. -/
def create_node (st : GraphState) (name node_type : String)
    (summary group_id : Option String) (node_uuid created_at : String) :
    String × NodeRecord × GraphState :=
  let n : PropNode :=
    { id := st.nextId, labels := [node_type], uuid := some node_uuid,
      name := some name, summary := summary, group_id := group_id,
      created_at := some created_at }
  ( createNodeQuery node_type,
    { uuid := some node_uuid, name := some name, summary := summary,
      group_id := group_id, created_at := some created_at, type := node_type },
    { nodes := st.nodes ++ [n], rels := st.rels, nextId := st.nextId + 1 } )

/-- The transformation `create_relationship` applies to the relationship type
before splicing it into the query: `relationship_type.upper().replace(" ", "_")`,
i.e. uppercase every character, then replace every space by an underscore. -/
def sanitizeRelType (s : String) : String :=
  ⟨s.data.map (fun c =>
    let u := c.toUpper
    if u = ' ' then '_' else u)⟩

/-- Embedding of `GraphOperations.create_relationship`: the query
`MATCH (source \x7buuid: $source_uuid\x7d) MATCH (target \x7buuid: $target_uuid\x7d)
CREATE (source)-[r:...]->(target) RETURN source, r, target` creates one edge
per row of the cartesian product of the two matches; `result.single()` is the
head of the row list, and a missing record raises the endpoint error.  On the
error path nothing matched, so nothing was created and the state is the input
state. -/
def create_relationship (st : GraphState)
    (source_uuid target_uuid relationship_type : String)
    (summary group_id : Option String) (rel_uuid created_at : String) :
    Except OpError RelRecord × GraphState :=
  let rel_type := sanitizeRelType relationship_type
  let rows := List.product (matchUuid st source_uuid) (matchUuid st target_uuid)
  let newRels : List PropRel := rows.map (fun p =>
    { srcId := p.1.id, dstId := p.2.id, relType := rel_type,
      uuid := some rel_uuid, summary := summary, group_id := group_id,
      created_at := some created_at })
  let st1 : GraphState := { st with rels := st.rels ++ newRels }
  match rows.head? with
  | some _ =>
      ( .ok { uuid := rel_uuid, source_uuid := source_uuid,
              target_uuid := target_uuid, type := relationship_type,
              summary := summary, group_id := group_id,
              created_at := created_at },
        st1 )
  | none => (.error .endpointNotFound, st1)

/-- The Python expression
`next((l for l in labels if l != "Entity"), labels[0] if labels else "Unknown")`
used by `get_node_by_uuid` and `update_node` to derive the public type. -/
def deriveNodeType (labels : List String) : String :=
  match labels.find? (fun l => decide (l ≠ "Entity")) with
  | some l => l
  | none =>
    match labels with
    | [] => "Unknown"
    | l :: _ => l

/-- Embedding of `GraphOperations.get_node_by_uuid`: match by `uuid` property
only (no label in the pattern), take the first record, and build the public
record via `deriveNodeType` on the node's labels; `None` when nothing
matched. -/
def get_node_by_uuid (st : GraphState) (node_uuid : String) : Option NodeRecord :=
  match (matchUuid st node_uuid).head? with
  | some n =>
      some { uuid := n.uuid, name := n.name, summary := n.summary,
             group_id := n.group_id, created_at := n.created_at,
             type := deriveNodeType n.labels }
  | none => none

/-- The dynamic `SET` clause of `update_node` applied to one node: only the
supplied fields are written. -/
def applySet (name summary : Option String) (n : PropNode) : PropNode :=
  { n with
    name := match name with | some v => some v | none => n.name,
    summary := match summary with | some v => some v | none => n.summary }

/-- Embedding of `GraphOperations.update_node`.  With neither field supplied
the code short-circuits to `get_node_by_uuid` and issues no write ("Node not
found" if the lookup is empty).  Otherwise `MATCH (n \x7buuid: $uuid\x7d)
SET ... RETURN n, labels(n)` updates every matching node and returns the
first updated record, raising "Node not found" on zero records (in which
case the SET touched nothing and the state is unchanged). -/
def update_node (st : GraphState) (node_uuid : String)
    (name summary : Option String) : Except OpError NodeRecord × GraphState :=
  if name = none ∧ summary = none then
    match get_node_by_uuid st node_uuid with
    | some r => (.ok r, st)
    | none => (.error .nodeNotFound, st)
  else
    let st1 : GraphState :=
      { st with nodes := st.nodes.map (fun n =>
          if n.uuid = some node_uuid then applySet name summary n else n) }
    match (matchUuid st1 node_uuid).head? with
    | some n =>
        ( .ok { uuid := n.uuid, name := n.name, summary := n.summary,
                group_id := n.group_id, created_at := n.created_at,
                type := deriveNodeType n.labels },
          st1 )
    | none => (.error .nodeNotFound, st1)

/-- Embedding of `GraphOperations.delete_node`:
`MATCH (n \x7buuid: $uuid\x7d) DETACH DELETE n RETURN count(n)` removes every
matching node together with all incident relationships; the count aggregate
always yields one record, and the method returns `deleted_count > 0`. -/
def delete_node (st : GraphState) (node_uuid : String) : Bool × GraphState :=
  let matched := matchUuid st node_uuid
  let deletedIds := matched.map (fun n => n.id)
  let st1 : GraphState :=
    { nodes := st.nodes.filter (fun n => !(decide (n.uuid = some node_uuid))),
      rels := st.rels.filter (fun r =>
        !(deletedIds.contains r.srcId) && !(deletedIds.contains r.dstId)),
      nextId := st.nextId }
  (decide (0 < matched.length), st1)

/-- The stats record returned by `get_graph_stats`. -/
structure GraphStats where
  total_nodes : Nat
  total_relationships : Nat
  total_episodes : Nat
  node_types : List String
  relationship_types : List String
deriving DecidableEq, Repr

/-- Result record of the node aggregate
`MATCH (n) RETURN count(n), collect(DISTINCT labels(n))`: an aggregation
always yields exactly one record, here the node count and the distinct label
lists. -/
def nodeStatsRecord (st : GraphState) : Option (Nat × List (List String)) :=
  some (st.nodes.length, (st.nodes.map (fun n => n.labels)).dedup)

/-- Result record of the relationship aggregate
`MATCH ()-[r]->() RETURN count(r), collect(DISTINCT type(r))`. -/
def relStatsRecord (st : GraphState) : Option (Nat × List String) :=
  some (st.rels.length, (st.rels.map (fun r => r.relType)).dedup)

/-- Result record of `MATCH (e:Episode) RETURN count(e)`: the number of nodes
carrying the `Episode` label. -/
def episodeStatsRecord (st : GraphState) : Option Nat :=
  some ((st.nodes.filter (fun n => n.labels.contains "Episode")).length)

/-- The merge step of `get_graph_stats`: each of the three records is used
through a guard that maps a missing (or falsy-empty) slice to zero counts and
empty lists, mirroring the Python conditionals verbatim. -/
def mergeStats (node_record : Option (Nat × List (List String)))
    (rel_record : Option (Nat × List String)) (episode_record : Option Nat) :
    GraphStats :=
  let all_labels : List String :=
    match node_record with
    | some p => if p.2.isEmpty then [] else p.2.flatten
    | none => []
  { total_nodes := match node_record with | some p => p.1 | none => 0,
    total_relationships := match rel_record with | some p => p.1 | none => 0,
    total_episodes := match episode_record with | some c => c | none => 0,
    node_types := all_labels.dedup,
    relationship_types :=
      match rel_record with
      | some p => if p.2.isEmpty then [] else p.2
      | none => [] }

/-- Embedding of `GraphOperations.get_graph_stats`: three independent read
queries, merged. -/
def get_graph_stats (st : GraphState) : GraphStats :=
  mergeStats (nodeStatsRecord st) (relStatsRecord st) (episodeStatsRecord st)

/-- The backtick character, the identifier-quoting delimiter of Cypher. -/
def backtickChar : Char := Char.ofNat 96

/-- The safety predicate of the spec's Label Sanitizer contract (the source
contains no implementation of it): a raw type string is acceptable as a label
only when it is nonempty and free of the quoting delimiter and of
control/newline characters. -/
def labelSafe (s : String) : Bool :=
  !s.data.isEmpty &&
    s.data.all (fun c => !(c = backtickChar) && decide (32 ≤ c.toNat))

/-- Drops leading and trailing whitespace from a character list (helper for
the spec-side normalization). -/
def trimWsChars (l : List Char) : List Char :=
  ((l.dropWhile Char.isWhitespace).reverse.dropWhile Char.isWhitespace).reverse

/-- Replaces each maximal whitespace run by a single underscore; the flag
records whether the previous character belonged to a run (helper for the
spec-side normalization). -/
def collapseRuns : Bool → List Char → List Char
  | _, [] => []
  | prevWs, c :: rest =>
    if c.isWhitespace then
      if prevWs then collapseRuns true rest else '_' :: collapseRuns true rest
    else c :: collapseRuns false rest

/-- Modelled from the spec: the relationship-type normalization the spec
prescribes — trim, uppercase, then replace each internal whitespace run with a
single underscore.  Stated only to compare against the source's
`sanitizeRelType`. -/
def specNormalizeRelType (s : String) : String :=
  ⟨collapseRuns false ((trimWsChars s.data).map Char.toUpper)⟩

/-- A two-node fixture graph (uuids u1, u2, no relationships). -/
def dbTwoNodes : GraphState :=
  ⟨[⟨0, ["Person"], some "u1", some "a", none, none, some "t1"⟩,
    ⟨1, ["Person"], some "u2", some "b", none, none, some "t2"⟩], [], 2⟩

/-- A fixture graph whose single node carries only the marker label. -/
def dbMarkerOnly : GraphState :=
  ⟨[⟨0, ["Entity"], some "u1", some "x", none, none, some "t1"⟩], [], 1⟩

/-- The node of the marker-plus-type fixture graph. -/
def nodeEP : PropNode :=
  ⟨0, ["Entity", "Person"], some "u1", some "x", none, none, some "t1"⟩

/-- A fixture graph whose single node carries the marker label and a type
label. -/
def dbEntityPerson : GraphState := ⟨[nodeEP], [], 1⟩

/-- The episode node of the episode fixture graph. -/
def nodeEpisode : PropNode :=
  ⟨1, ["Episode"], some "e1", some "ep", none, none, some "t2"⟩

/-- A fixture graph holding one entity node and one episode node. -/
def dbEpisode : GraphState :=
  ⟨[⟨0, ["Person"], some "u1", some "x", none, none, some "t1"⟩, nodeEpisode],
   [], 2⟩

/-- `List.find?` returns the head of the filtered list. -/
theorem find?_eq_filter_head? {α : Type} (p : α → Bool) :
    ∀ l : List α, l.find? p = (l.filter p).head? := by
  intro l
  induction l with
  | nil => rfl
  | cons a l ih =>
    by_cases h : p a = true
    · rw [List.find?_cons_of_pos _ h, List.filter_cons_of_pos h]
      rfl
    · rw [List.find?_cons_of_neg _ (by simp [h]),
        List.filter_cons_of_neg (by simp [h]), ih]

/-- The derived public type is the first non-marker label, then the first
label, then "Unknown". -/
theorem deriveNodeType_eq (L : List String) :
    deriveNodeType L
      = (L.filter (fun l => decide (l ≠ "Entity"))).headD (L.headD "Unknown") := by
  unfold deriveNodeType
  rw [find?_eq_filter_head?]
  cases h : L.filter (fun l => decide (l ≠ "Entity")) with
  | nil => cases L <;> simp
  | cons a t => simp

/-- On a single-label node the derived type is that label, whether or not it
is the marker. -/
theorem deriveNodeType_singleton (t : String) : deriveNodeType [t] = t := by
  by_cases h : t = "Entity"
  · subst h; rfl
  · simp [deriveNodeType, List.find?, h]

/-- C1: the claim says node create fails with `InvalidLabelError` before any
query is issued whenever the type string is empty or contains the quoting
delimiter (backtick) or a control/newline character, leaving the graph
unchanged.  The code contains no such check: evaluated at the spec's own
injection payload, at a newline-carrying type, and at the empty string — all
three rejected by the sanitizer contract — `create_node` still reaches
`session.run`, with the raw type spliced verbatim into the query text; in the
payload case the payload's own backtick closes the quoted label so
"; DETACH DELETE n //" lands in raw query position. -/
theorem create_node_issues_query_for_unsafe_type :
    labelSafe "Person\x60; DETACH DELETE n //" = false ∧
    (create_node emptyDb "x" "Person\x60; DETACH DELETE n //" none none
        "u0" "t0").1
      = "\n            CREATE (n:\x60Person\x60; DETACH DELETE n //\x60 \x7b\n                uuid: $uuid,\n                name: $name,\n                summary: $summary,\n                group_id: $group_id,\n                created_at: $created_at\n            \x7d)\n            RETURN n\n            " ∧
    labelSafe "Person\nX" = false ∧
    labelSafe "" = false ∧
    (create_node emptyDb "x" "" none none "u0" "t0").1
      = "\n            CREATE (n:\x60\x60 \x7b\n                uuid: $uuid,\n                name: $name,\n                summary: $summary,\n                group_id: $group_id,\n                created_at: $created_at\n            \x7d)\n            RETURN n\n            " := by
  refine ⟨by decide, rfl, by decide, by decide, rfl⟩

/-- C2: the claim says every node written by node create carries the generic
marker label `Entity` alongside the caller-supplied type label.  The effective
`CREATE` query sets only the caller-supplied label (the draft query that also
set `Entity` is overwritten before use), so the created node's label list is
exactly `[type]` and no created node carries `Entity`. -/
theorem create_node_no_marker_label :
    ((create_node emptyDb "x" "Person" none none "u0" "t0").2.2.nodes.map
        (fun n => n.labels)) = [["Person"]] ∧
    ((create_node emptyDb "x" "Person" none none "u0" "t0").2.2.nodes.all
        (fun n => !(n.labels.contains "Entity"))) = true := by
  decide

/-- C5 counterexample: the claim says the persisted edge label is the input
trimmed, uppercased, with each internal whitespace run collapsed to one
underscore.  On the input "a  b" (two internal spaces) the code persists
"A__B" — each space becomes its own underscore — while the spec's
normalization yields "A_B"; the two disagree. -/
theorem relationship_type_not_run_collapsed :
    ((create_relationship dbTwoNodes "u1" "u2" "a  b" none none
        "r0" "t0").2.rels.map (fun r => r.relType)) = ["A__B"] ∧
    specNormalizeRelType "a  b" = "A_B" ∧
    ¬ (("A__B" : String) = "A_B") := by
  decide

/-- C6 counterexample: the claim says node get falls back to "Unknown" when no
non-marker label exists.  On a stored node whose only label is `Entity`, the
code's fallback is `labels[0]`, so get reports type "Entity", not
"Unknown". -/
theorem marker_only_node_reports_marker :
    ((get_node_by_uuid dbMarkerOnly "u1").map (fun r => r.type)) = some "Entity" ∧
    ¬ (((get_node_by_uuid dbMarkerOnly "u1").map (fun r => r.type))
        = some "Unknown") := by
  decide

/-- C3: when the source uuid or the target uuid resolves to no stored node,
relationship create fails with the endpoint error and the graph state is
unchanged — the match-and-create query matched no row, so no edge (not even a
partial one) was written. -/
theorem create_relationship_missing_endpoint_fails (st : GraphState)
    (su tu t : String) (s g : Option String) (ru c : String)
    (h : (∀ n ∈ st.nodes, n.uuid ≠ some su) ∨
         (∀ n ∈ st.nodes, n.uuid ≠ some tu)) :
    (create_relationship st su tu t s g ru c).1 = .error .endpointNotFound ∧
    (create_relationship st su tu t s g ru c).2 = st := by
  have hrows : List.product (matchUuid st su) (matchUuid st tu) = [] := by
    cases h with
    | inl h =>
      have hsu : matchUuid st su = [] := by
        simp only [matchUuid, List.filter_eq_nil_iff, decide_eq_true_eq]
        intro n hn
        exact h n hn
      simp [List.product, hsu]
    | inr h =>
      have htu : matchUuid st tu = [] := by
        simp only [matchUuid, List.filter_eq_nil_iff, decide_eq_true_eq]
        intro n hn
        exact h n hn
      simp [List.product, htu]
  constructor
  · simp [create_relationship, hrows]
  · simp [create_relationship, hrows]

/-- C3 witness: against the two-node fixture, creating a relationship toward
the unknown uuid "zz" fails with the endpoint error and leaves the fixture
unchanged. -/
theorem create_relationship_missing_endpoint_fails_witness :
    (create_relationship dbTwoNodes "u1" "zz" "KNOWS" none none "r0" "t0").1
      = .error .endpointNotFound ∧
    (create_relationship dbTwoNodes "u1" "zz" "KNOWS" none none "r0" "t0").2
      = dbTwoNodes :=
  create_relationship_missing_endpoint_fails dbTwoNodes "u1" "zz" "KNOWS"
    none none "r0" "t0" (Or.inr (by decide))

/-- C4: for every valid input and fresh uuid, getting the node by the uuid
returned from create yields a record equal to the created record in every
field (uuid, name, summary, group_id, created_at, type). -/
theorem create_then_get_roundtrip (st : GraphState) (nm t : String)
    (s g : Option String) (u c : String)
    (_hvalid : labelSafe t = true)
    (hfresh : ∀ n ∈ st.nodes, n.uuid ≠ some u) :
    get_node_by_uuid (create_node st nm t s g u c).2.2 u
      = some (create_node st nm t s g u c).2.1 := by
  have hnil : st.nodes.filter (fun n => decide (n.uuid = some u)) = [] := by
    simp only [List.filter_eq_nil_iff, decide_eq_true_eq]
    intro n hn
    exact hfresh n hn
  simp [get_node_by_uuid, matchUuid, create_node, List.filter_append, hnil,
    deriveNodeType_singleton]

/-- C4 witness: the round trip at a concrete creation on the empty graph. -/
theorem create_then_get_roundtrip_witness :
    get_node_by_uuid (create_node emptyDb "x" "Person" none none
        "u0" "t0").2.2 "u0"
      = some (create_node emptyDb "x" "Person" none none "u0" "t0").2.1 :=
  create_then_get_roundtrip emptyDb "x" "Person" none none "u0" "t0"
    (by decide) (by decide)

/-- C6 amended: node get looks the node up by uuid only (any labels), and the
reported type is the first label that is not the marker `Entity`; when all
labels are the marker the fallback is the record's first label (hence
`Entity`), and "Unknown" appears only when the record has no labels at
all. -/
theorem get_node_type_is_first_nonmarker (st : GraphState) (u : String)
    (n : PropNode) (h : (matchUuid st u).head? = some n) :
    get_node_by_uuid st u
      = some { uuid := n.uuid, name := n.name, summary := n.summary,
               group_id := n.group_id, created_at := n.created_at,
               type := (n.labels.filter (fun l => decide (l ≠ "Entity"))).headD
                         (n.labels.headD "Unknown") } := by
  simp [get_node_by_uuid, h, deriveNodeType_eq]

/-- C6 amended witness: on a node labelled [Entity, Person] the reported type
is the first non-marker label. -/
theorem get_node_type_is_first_nonmarker_witness :
    get_node_by_uuid dbEntityPerson "u1"
      = some { uuid := nodeEP.uuid, name := nodeEP.name,
               summary := nodeEP.summary, group_id := nodeEP.group_id,
               created_at := nodeEP.created_at,
               type := (nodeEP.labels.filter
                          (fun l => decide (l ≠ "Entity"))).headD
                         (nodeEP.labels.headD "Unknown") } :=
  get_node_type_is_first_nonmarker dbEntityPerson "u1" nodeEP (by decide)

/-- C7: update with neither name nor summary supplied short-circuits: it
returns the current record with the state untouched, and fails with the
not-found error when no node carries the uuid. -/
theorem update_node_noop (st : GraphState) (u : String) :
    (∀ r, get_node_by_uuid st u = some r →
        update_node st u none none = (.ok r, st)) ∧
    (get_node_by_uuid st u = none →
        update_node st u none none = (.error .nodeNotFound, st)) := by
  constructor
  · intro r h
    simp [update_node, h]
  · intro h
    simp [update_node, h]

/-- C7 witness: the no-op update on the two-node fixture returns the stored
record unchanged, and on the empty graph it reports not-found. -/
theorem update_node_noop_witness :
    update_node dbTwoNodes "u1" none none
      = (.ok ⟨some "u1", some "a", none, none, some "t1", "Person"⟩,
         dbTwoNodes) ∧
    update_node emptyDb "zz" none none = (.error .nodeNotFound, emptyDb) :=
  ⟨(update_node_noop dbTwoNodes "u1").1
      ⟨some "u1", some "a", none, none, some "t1", "Person"⟩ (by decide),
   (update_node_noop emptyDb "zz").2 (by decide)⟩

/-- C5 amended: when both endpoints resolve, relationship create succeeds; the
label persisted on every new edge is the input uppercased with each space
character replaced by an underscore (no trimming, no collapsing of runs),
while the `type` field echoed to the caller is the original string
unmodified. -/
theorem create_relationship_persists_normalized_echoes_raw (st : GraphState)
    (su tu t : String) (s g : Option String) (ru c : String)
    (hs : ∃ n ∈ st.nodes, n.uuid = some su)
    (ht : ∃ n ∈ st.nodes, n.uuid = some tu) :
    ∃ rec, (create_relationship st su tu t s g ru c).1 = .ok rec ∧
      rec.type = t ∧
      st.rels.length < (create_relationship st su tu t s g ru c).2.rels.length ∧
      ∀ r ∈ (create_relationship st su tu t s g ru c).2.rels.drop
          st.rels.length,
        r.relType = sanitizeRelType t := by
  obtain ⟨a, ha, hau⟩ := hs
  obtain ⟨b, hb, hbu⟩ := ht
  have hab : (a, b) ∈ List.product (matchUuid st su) (matchUuid st tu) :=
    List.mem_product.mpr ⟨List.mem_filter.mpr ⟨ha, by simp [hau]⟩,
      List.mem_filter.mpr ⟨hb, by simp [hbu]⟩⟩
  cases hrows : List.product (matchUuid st su) (matchUuid st tu) with
  | nil =>
    rw [hrows] at hab
    cases hab
  | cons r0 rest =>
    refine ⟨{ uuid := ru, source_uuid := su, target_uuid := tu, type := t,
              summary := s, group_id := g, created_at := c }, ?_, rfl, ?_, ?_⟩
    · simp [create_relationship, hrows]
    · simp [create_relationship, hrows]
    · intro r hr
      simp only [create_relationship, hrows, List.head?_cons] at hr
      rw [List.drop_left] at hr
      obtain ⟨x, _, rfl⟩ := List.mem_map.mp hr
      rfl

/-- C5 amended witness: on the two-node fixture with the raw type " a  b ",
the edge is created, the echoed type is the raw string, and the persisted
label is its no-trim, space-for-underscore image "_A__B_". -/
theorem create_relationship_persists_normalized_echoes_raw_witness :
    ∃ rec, (create_relationship dbTwoNodes "u1" "u2" " a  b " none none
        "r1" "t0").1 = .ok rec ∧
      rec.type = " a  b " ∧
      dbTwoNodes.rels.length
        < (create_relationship dbTwoNodes "u1" "u2" " a  b " none none
            "r1" "t0").2.rels.length ∧
      ∀ r ∈ (create_relationship dbTwoNodes "u1" "u2" " a  b " none none
          "r1" "t0").2.rels.drop dbTwoNodes.rels.length,
        r.relType = sanitizeRelType " a  b " :=
  create_relationship_persists_normalized_echoes_raw dbTwoNodes "u1" "u2"
    " a  b " none none "r1" "t0"
    ⟨⟨0, ["Person"], some "u1", some "a", none, none, some "t1"⟩,
      by decide, rfl⟩
    ⟨⟨1, ["Person"], some "u2", some "b", none, none, some "t2"⟩,
      by decide, rfl⟩

/-- C8: node delete returns true exactly when at least one stored node carries
the uuid; on no match it returns false without an error and leaves the state
unchanged; and after the cascading detach-delete no node with the uuid
remains. -/
theorem delete_node_deletes_matching (st : GraphState) (u : String) :
    ((delete_node st u).1 = true ↔ ∃ n ∈ st.nodes, n.uuid = some u) ∧
    ((∀ n ∈ st.nodes, n.uuid ≠ some u) →
        (delete_node st u).1 = false ∧ (delete_node st u).2 = st) ∧
    (∀ n ∈ (delete_node st u).2.nodes, ¬ n.uuid = some u) := by
  refine ⟨?_, ?_, ?_⟩
  · simp only [delete_node, matchUuid, decide_eq_true_eq]
    constructor
    · intro hlen
      have hne : st.nodes.filter (fun n => decide (n.uuid = some u)) ≠ [] := by
        intro hnil
        rw [hnil] at hlen
        simp at hlen
      obtain ⟨x, hx⟩ := List.exists_mem_of_ne_nil _ hne
      have hx2 := List.mem_filter.mp hx
      exact ⟨x, hx2.1, by simpa using hx2.2⟩
    · rintro ⟨n, hn, hnu⟩
      have hmem : n ∈ st.nodes.filter (fun n => decide (n.uuid = some u)) :=
        List.mem_filter.mpr ⟨hn, by simp [hnu]⟩
      exact List.length_pos.mpr (List.ne_nil_of_mem hmem)
  · intro h
    have hnil : matchUuid st u = [] := by
      simp only [matchUuid, List.filter_eq_nil_iff, decide_eq_true_eq]
      intro n hn
      exact h n hn
    have h1 : st.nodes.filter (fun n => !(decide (n.uuid = some u)))
        = st.nodes :=
      List.filter_eq_self.mpr (fun n hn => by simp [h n hn])
    constructor
    · simp [delete_node, hnil]
    · simp [delete_node, hnil, h1]
  · intro n hn
    simp only [delete_node] at hn
    have := (List.mem_filter.mp hn).2
    simpa using this

/-- C8 witness: deleting the unknown uuid "zz" from the two-node fixture
returns false and leaves the fixture unchanged. -/
theorem delete_node_deletes_matching_witness :
    (delete_node dbTwoNodes "zz").1 = false ∧
    (delete_node dbTwoNodes "zz").2 = dbTwoNodes :=
  (delete_node_deletes_matching dbTwoNodes "zz").2.1 (by decide)

/-- C9: the stats merge maps each missing result record to zero counts and
empty type lists instead of an error, and stats on the empty graph succeeds
with all-zero counts and empty node_types and relationship_types. -/
theorem stats_empty_graph_defaults :
    (∀ rr er, (mergeStats none rr er).total_nodes = 0 ∧
        (mergeStats none rr er).node_types = []) ∧
    (∀ nr er, (mergeStats nr none er).total_relationships = 0 ∧
        (mergeStats nr none er).relationship_types = []) ∧
    (∀ nr rr, (mergeStats nr rr none).total_episodes = 0) ∧
    get_graph_stats emptyDb = ⟨0, 0, 0, [], []⟩ := by
  refine ⟨fun rr er => ⟨rfl, rfl⟩, fun nr er => ⟨rfl, rfl⟩,
    fun nr rr => rfl, by decide⟩

/-- C10: total_nodes counts every stored node whatever its labels, so the
episode count never exceeds it; node_types contains exactly the labels
occurring on some node — in particular `Episode` as soon as one episode node
exists. -/
theorem stats_count_all_nodes_and_labels (st : GraphState) :
    (get_graph_stats st).total_nodes = st.nodes.length ∧
    (get_graph_stats st).total_episodes ≤ (get_graph_stats st).total_nodes ∧
    (∀ l, l ∈ (get_graph_stats st).node_types ↔ ∃ n ∈ st.nodes, l ∈ n.labels) ∧
    ((∃ n ∈ st.nodes, "Episode" ∈ n.labels) →
        "Episode" ∈ (get_graph_stats st).node_types) := by
  have hmem : ∀ l, l ∈ (get_graph_stats st).node_types
      ↔ ∃ n ∈ st.nodes, l ∈ n.labels := by
    intro l
    simp only [get_graph_stats, mergeStats, nodeStatsRecord]
    split_ifs with hnil
    · have hz : st.nodes = [] := by
        have := List.isEmpty_iff.mp hnil
        rw [List.dedup_eq_nil] at this
        exact List.map_eq_nil_iff.mp this
      simp [hz]
    · simp only [List.mem_dedup, List.mem_flatten, List.mem_map]
      constructor
      · rintro ⟨L, ⟨n, hn, rfl⟩, hl⟩
        exact ⟨n, hn, hl⟩
      · rintro ⟨n, hn, hl⟩
        exact ⟨n.labels, ⟨n, hn, rfl⟩, hl⟩
  refine ⟨rfl, ?_, hmem, fun hep => (hmem "Episode").mpr hep⟩
  exact List.length_filter_le _ _

/-- C10 witness: on a fixture holding one entity node and one episode node,
`Episode` appears among node_types and the episode count is bounded by the
node count. -/
theorem stats_count_all_nodes_and_labels_witness :
    "Episode" ∈ (get_graph_stats dbEpisode).node_types ∧
    (get_graph_stats dbEpisode).total_episodes
      ≤ (get_graph_stats dbEpisode).total_nodes :=
  ⟨(stats_count_all_nodes_and_labels dbEpisode).2.2.2
      ⟨nodeEpisode, by decide, by decide⟩,
   (stats_count_all_nodes_and_labels dbEpisode).2.1⟩
